import Mathlib

/-!
Shallow embedding of the modem-control core in `telit.py` (class hierarchy
`ModemBase` → `TelitGPS` → `TelitECM` → `Telit`).  Strings are modelled as
`List Char`, Python floats as `ℚ` (all values involved are decimal literals),
and raised exceptions as `Except PyErr`.  The interaction with the physical
modem (pexpect `expect` events) is modelled by explicit event scripts.
-/

/-- The exception classes of `telit.py` together with Python's `ValueError`
(raised by `int()` / `float()` on malformed text). -/
inductive PyErr where
  | modemTimeout
  | modemError
  | modemBusted
  | telitGPSDataError
  | ecmDataError
  | valueError
  deriving DecidableEq, Repr

instance {ε α : Type} [DecidableEq ε] [DecidableEq α] : DecidableEq (Except ε α) :=
  fun x y =>
    match x, y with
    | .ok a, .ok b =>
      if h : a = b then .isTrue (by rw [h]) else .isFalse fun hh => h (Except.ok.inj hh)
    | .error a, .error b =>
      if h : a = b then .isTrue (by rw [h]) else .isFalse fun hh => h (Except.error.inj hh)
    | .ok _, .error _ => .isFalse fun h => Except.noConfusion h
    | .error _, .ok _ => .isFalse fun h => Except.noConfusion h

/-- Python `str.split(sep)` on a single-character separator:
`"".split(sep) == [""]`, and every separator occurrence produces a field. -/
def pySplit (sep : Char) : List Char → List (List Char)
  | [] => [[]]
  | c :: rest =>
    match pySplit sep rest with
    | [] => if c = sep then [[], []] else [[c]]
    | h :: t => if c = sep then [] :: h :: t else (c :: h) :: t

/-- All characters are ASCII decimal digits. -/
def decDigits (s : List Char) : Bool := s.all Char.isDigit

/-- Numeric value of a string of decimal digits. -/
def digitsToNat (s : List Char) : ℕ :=
  s.foldl (fun a c => a * 10 + (c.toNat - 48)) 0

/-- Python `int(s)` on the character set reachable here (`[0-9A-Z,.]`):
succeeds exactly on a nonempty all-digit string. -/
def pyInt (s : List Char) : Option ℕ :=
  if s ≠ [] ∧ decDigits s then some (digitsToNat s) else none

/-- Mantissa part of a Python float literal: `d+`, `d+.`, `.d+` or `d+.d+`. -/
def pyMantissa (s : List Char) : Option ℚ :=
  match pySplit '.' s with
  | [w] => if w ≠ [] ∧ decDigits w then some (digitsToNat w) else none
  | [w, f] =>
    if (w ≠ [] ∨ f ≠ []) ∧ decDigits w ∧ decDigits f then
      some ((digitsToNat w : ℚ) + (digitsToNat f : ℚ) / (10 : ℚ) ^ f.length)
    else none
  | _ => none

/-- Exponent part of a Python float literal: optionally signed digits. -/
def pyExponent (s : List Char) : Option ℤ :=
  match s with
  | '+' :: ds => if ds ≠ [] ∧ decDigits ds then some (digitsToNat ds) else none
  | '-' :: ds => if ds ≠ [] ∧ decDigits ds then some (-(digitsToNat ds : ℤ)) else none
  | ds => if ds ≠ [] ∧ decDigits ds then some (digitsToNat ds) else none

/-- Python `float(s)` on the character set reachable here: a decimal
mantissa with an optional `e`/`E` exponent.  (Signs, whitespace, `inf`/`nan`
spellings cannot occur in the captured modem responses.) -/
def pyFloat (s : List Char) : Option ℚ :=
  let t := s.map (fun c => if c = 'e' then 'E' else c)
  match pySplit 'E' t with
  | [m] => pyMantissa m
  | [m, ex] =>
    match pyMantissa m, pyExponent ex with
    | some mv, some ev => some (mv * (10 : ℚ) ^ ev)
    | _, _ => none
  | _ => none

/-- `ModemBase._strip_quotes`: strip one matching pair of double quotes. -/
def strip_quotes (buf : List Char) : List Char :=
  if buf.length < 2 then buf
  else if buf.head? = some '"' ∧ buf.getLast? = some '"' then
    (buf.drop 1).dropLast
  else buf

/-- `TelitGPS._parse_latitude`: `sign * (int(lat[:2]) + float(lat[2:-1]) / 60)`
with `sign` 1 for a trailing `N`, -1 for `S`, and 0 otherwise.  `none` models
a `ValueError` raised by `int()`/`float()`. -/
def parse_latitude (lat : List Char) : Option ℚ :=
  let sign : ℚ :=
    if lat.getLast? = some 'N' then 1
    else if lat.getLast? = some 'S' then -1
    else 0
  match pyInt (lat.take 2), pyFloat ((lat.drop 2).dropLast) with
  | some d, some m => some (sign * ((d : ℚ) + m / 60))
  | _, _ => none

/-- `TelitGPS._parse_longitude`: as latitude but with a 3-digit degree prefix
and directions `E`/`W`. -/
def parse_longitude (lon : List Char) : Option ℚ :=
  let sign : ℚ :=
    if lon.getLast? = some 'E' then 1
    else if lon.getLast? = some 'W' then -1
    else 0
  match pyInt (lon.take 3), pyFloat ((lon.drop 3).dropLast) with
  | some d, some m => some (sign * ((d : ℚ) + m / 60))
  | _, _ => none

/-- The dict built by `TelitGPS._parse_values`: the twelve raw fields plus the
four parsed numeric entries. -/
structure GPSFix where
  GMTIME : List Char
  LATITUDE : List Char
  LONGITUDE : List Char
  HDOP : List Char
  ALTITUDE : List Char
  fix : List Char
  COG : List Char
  SPKM : List Char
  SPKN : List Char
  DATE : List Char
  NSAT_GPS : List Char
  NSAT_GLONASS : List Char
  latitude : ℚ
  longitude : ℚ
  altitude : ℚ
  hdop : ℚ
  deriving DecidableEq, Repr

/-- `TelitGPS._parse_values`: raises `TelitGPSDataError` unless the sentence
has exactly 12 fields, then parses latitude, longitude, altitude and HDOP
(a failed numeric conversion is Python's `ValueError`). -/
def parse_values (position : List (List Char)) : Except PyErr GPSFix :=
  if position.length ≠ 12 then .error .telitGPSDataError
  else
    match parse_latitude (position.getD 1 []), parse_longitude (position.getD 2 []),
        pyFloat (position.getD 4 []), pyFloat (position.getD 3 []) with
    | some la, some lo, some alt, some hd =>
      .ok { GMTIME := position.getD 0 [], LATITUDE := position.getD 1 [],
            LONGITUDE := position.getD 2 [], HDOP := position.getD 3 [],
            ALTITUDE := position.getD 4 [], fix := position.getD 5 [],
            COG := position.getD 6 [], SPKM := position.getD 7 [],
            SPKN := position.getD 8 [], DATE := position.getD 9 [],
            NSAT_GPS := position.getD 10 [], NSAT_GLONASS := position.getD 11 [],
            latitude := la, longitude := lo, altitude := alt, hdop := hd }
    | _, _, _, _ => .error .valueError

/-- The retention update on line 303-304 of `telit.py`:
`if min_results is None or min_results["hdop"] >= rc["hdop"]: min_results = rc`. -/
def retain (minr : Option GPSFix) (rc : GPSFix) : Option GPSFix :=
  match minr with
  | none => some rc
  | some m => if m.hdop ≥ rc.hdop then some rc else some m

/-- Observable outcome of one `TelitGPS.get_position` run: the returned value
(or propagated exception) together with the number of 10-second inter-attempt
delays that were performed. -/
structure GPSRun where
  result : Except PyErr (Option GPSFix)
  sleeps : ℕ
  deriving DecidableEq, Repr

/-- The body of the `for k in range(total)` loop of `TelitGPS.get_position`,
driven by the script of raw responses (one per attempt, `total` = script
length).  `minr` is the `min_results` accumulator.  The 10-second delay runs
at the top of every iteration except the first. -/
def get_position_loop (t : ℚ) : List (List Char) → Option GPSFix → GPSRun
  | [], minr => ⟨.ok minr, 0⟩
  | r :: rest, minr =>
    let position := pySplit ',' r
    if position.length ≥ 6 ∧ position.getD 5 [] = "3".data then
      match parse_values position with
      | .error e => ⟨.error e, 0⟩
      | .ok rc =>
        if t ≥ rc.hdop then ⟨.ok (some rc), 0⟩
        else
          let sub := get_position_loop t rest (retain minr rc)
          ⟨sub.result, sub.sleeps + if rest.isEmpty then 0 else 1⟩
    else
      let sub := get_position_loop t rest minr
      ⟨sub.result, sub.sleeps + if rest.isEmpty then 0 else 1⟩

/-- `TelitGPS.get_position(hdop, total)` where `script` lists the raw
response captured on each of the `total` attempts. -/
def get_position (t : ℚ) (script : List (List Char)) : GPSRun :=
  get_position_loop t script none

/-- The usability test on line 298 of `telit.py`:
`len(position) >= 6 and position[5] == '3'`. -/
def usableShape (r : List Char) : Prop :=
  (pySplit ',' r).length ≥ 6 ∧ (pySplit ',' r).getD 5 [] = "3".data

instance (r : List Char) : Decidable (usableShape r) := by
  unfold usableShape; infer_instance

/-- A script on which every usable-shaped response decodes without raising:
under this hypothesis the loop never aborts with an exception. -/
def cleanResponses (script : List (List Char)) : Prop :=
  ∀ r ∈ script, usableShape r → ∃ f, parse_values (pySplit ',' r) = .ok f

/-- The usable fix decoded from one response, if any (quality-3 shape and a
successful `_parse_values`). -/
def decodeUsable (r : List Char) : Option GPSFix :=
  if usableShape r then (parse_values (pySplit ',' r)).toOption else none

/-- The first decoded usable fix in the script whose HDOP meets the target
(`hdop >= rc["hdop"]`) — the fix `get_position` returns immediately. -/
def firstGood (t : ℚ) : List (List Char) → Option GPSFix
  | [] => none
  | r :: rest =>
    match decodeUsable r with
    | some f => if t ≥ f.hdop then some f else firstGood t rest
    | none => firstGood t rest

/-- The fix retained after folding the code's retention rule (lines 303-304)
over every decoded usable fix of the script, starting from `init`. -/
def bestRetainedFrom (init : Option GPSFix) (script : List (List Char)) : Option GPSFix :=
  (script.filterMap decodeUsable).foldl retain init

/-- The retention rule as the claim words it: a fix is retained only if it is
strictly better (lower HDOP) than the previously retained one. -/
def retainStrict (minr : Option GPSFix) (rc : GPSFix) : Option GPSFix :=
  match minr with
  | none => some rc
  | some m => if m.hdop > rc.hdop then some rc else some m

/-- `get_position`'s result as the claim describes it: the first
good-enough fix, else the best fix retained under strictly-better retention. -/
def claimAcquire (t : ℚ) (script : List (List Char)) : Option GPSFix :=
  match firstGood t script with
  | some f => some f
  | none => (script.filterMap decodeUsable).foldl retainStrict none

/-- One outcome of `ModemBase._wait_for_result`: the `expect` call matched
`pexpect.TIMEOUT`, `"OK\r\n"` or `"ERROR\r\n"`. -/
inductive ATEvent where
  | timeout
  | okResp
  | errResp
  deriving DecidableEq, Repr

/-- `ModemBase._wait_for_result` on one event: `OK` returns, `TIMEOUT` raises
`ModemTimeout`, `ERROR` raises `ModemError`. -/
def wait_for_result : ATEvent → Except PyErr Unit
  | .timeout => .error .modemTimeout
  | .okResp => .ok ()
  | .errResp => .error .modemError

/-- Observable outcome of one `ModemBase.send_at_ok` run: returned value or
propagated exception, number of `AT` sends, number of 0.5-second backoffs. -/
structure ATRun where
  result : Except PyErr Unit
  attempts : ℕ
  sleeps : ℕ
  deriving DecidableEq, Repr

/-- The `for k in range(count)` loop of `ModemBase.send_at_ok`: attempt `k`
sends `AT` and waits; only a `ModemTimeout` is caught (followed by the 0.5 s
backoff); an `OK` returns; exhaustion raises `ModemTimeout`.  `env k` is the
wait outcome of attempt number `k`. -/
def sendAtOkAux (env : ℕ → ATEvent) (k : ℕ) : ℕ → ATRun
  | 0 => ⟨.error .modemTimeout, 0, 0⟩
  | n + 1 =>
    match wait_for_result (env k) with
    | .ok _ => ⟨.ok (), 1, 0⟩
    | .error .modemTimeout =>
      let sub := sendAtOkAux env (k + 1) n
      ⟨sub.result, sub.attempts + 1, sub.sleeps + 1⟩
    | .error e => ⟨.error e, 1, 0⟩

/-- `ModemBase.send_at_ok(count)` on the wait-outcome environment `env`. -/
def send_at_ok (env : ℕ → ATEvent) (count : ℕ) : ATRun :=
  sendAtOkAux env 0 count

/-- The externally visible steps of `TelitECM._wait_for_reboot`. -/
inductive RebootAction where
  | settleSleep
  | waitEOF
  | startCu
  | shortSleep
  | handshake
  deriving DecidableEq, Repr

/-- Observable outcome of one `TelitECM._wait_for_reboot` run. -/
structure RebootRun where
  result : Except PyErr Unit
  actions : List RebootAction
  deriving DecidableEq, Repr

/-- `TelitECM._wait_for_reboot`: sleep 30 s, `expect([TIMEOUT, EOF], 30)`;
index 0 (no EOF within the window) raises `ModemTimeout`; index 1 restarts
`cu`, sleeps 0.5 s and re-runs `send_at_ok` (whose wait outcomes are `env`). -/
def wait_for_reboot (eof : Bool) (env : ℕ → ATEvent) : RebootRun :=
  if eof then
    ⟨(send_at_ok env 10).result,
     [.settleSleep, .waitEOF, .startCu, .shortSleep, .handshake]⟩
  else
    ⟨.error .modemTimeout, [.settleSleep, .waitEOF]⟩

/-- One event seen by the `expect` loop of `TelitECM.get_cgdcont`:
`pexpect.TIMEOUT`, a `+CGDCONT:` data row (its captured text), or `OK`. -/
inductive CgdEvent where
  | timeout
  | row (s : List Char)
  | okTerm
  deriving DecidableEq, Repr

/-- The per-row treatment in `TelitECM.get_cgdcont`: split on commas; keep the
row when it has at least 4 fields and its context id (field 0) is `"1"`,
stripping quotes from fields 1 and 2. -/
def retainedRow (s : List Char) : Option (List (List Char)) :=
  let stuff := pySplit ',' s
  if stuff.length ≥ 4 ∧ stuff.getD 0 [] = "1".data then
    some ((stuff.set 1 (strip_quotes (stuff.getD 1 []))).set 2
      (strip_quotes (stuff.getD 2 [])))
  else none

/-- The `while not finished` loop of `TelitECM.get_cgdcont`.  `rc` is the
retained row so far.  `none` means the event script ran out while the loop
was still waiting (the physical loop would still be blocked in `expect`). -/
def get_cgdcont_loop : List CgdEvent → Option (List (List Char)) →
    Option (Except PyErr (List (List Char)))
  | [], _ => none
  | e :: rest, rc =>
    match e with
    | .timeout => some (.error .modemTimeout)
    | .okTerm =>
      some (match rc with
            | none => .error .ecmDataError
            | some r => .ok r)
    | .row s =>
      get_cgdcont_loop rest
        (match retainedRow s with
         | some v => some v
         | none => rc)

/-- `TelitECM.get_cgdcont()` on the event script `events`. -/
def get_cgdcont (events : List CgdEvent) : Option (Except PyErr (List (List Char))) :=
  get_cgdcont_loop events none

/-- `TelitECM.get_ecm_config` applied to the text captured from the `AT#ECMC?`
reply: split on commas; fewer than 5 fields raises `ECMDataError`; otherwise
every field is quote-stripped. -/
def get_ecm_config (reply : List Char) : Except PyErr (List (List Char)) :=
  let stuff := pySplit ',' reply
  if stuff.length ≥ 5 then .ok (stuff.map strip_quotes)
  else .error .ecmDataError

/-- `TelitECM.ecm_up`: `get_ecm_config(...)[1] == "1"`. -/
def ecm_up (reply : List Char) : Except PyErr Bool :=
  match get_ecm_config reply with
  | .error e => .error e
  | .ok v => .ok (decide (v.getD 1 [] = "1".data))

/-- `Telit.signal_strength` applied to the captured integer: `rc <= 31` maps
to `rc / 31`, `100 <= rc <= 191` maps to `(rc - 100) / 91`, anything else is
`None`.  (The regex `[0-9]+` makes the input a natural number.) -/
def signal_strength (rc : ℕ) : Option ℚ :=
  if rc ≤ 31 then some ((rc : ℚ) / 31)
  else if 100 ≤ rc ∧ rc ≤ 191 then some (((rc : ℚ) - 100) / 91)
  else none

/-- A quality-3 `AT$GPSACP` sentence with HDOP 9.0 (all other numerics 0). -/
def hdop9Sentence : List Char := "0,0000.0000N,00000.0000E,9.0,0.0,3,0,0,0,0,0,0".data

/-- A quality-3 sentence with HDOP 4.0. -/
def hdop4Sentence : List Char := "0,0000.0000N,00000.0000E,4.0,0.0,3,0,0,0,0,0,0".data

/-- A quality-3 sentence with HDOP 2.0. -/
def hdop2Sentence : List Char := "0,0000.0000N,00000.0000E,2.0,0.0,3,0,0,0,0,0,0".data

/-- A quality-3 sentence with HDOP 1.2. -/
def hdop12Sentence : List Char := "0,0000.0000N,00000.0000E,1.2,0.0,3,0,0,0,0,0,0".data

/-- A miss: a structurally complete sentence whose fix-quality field is 0. -/
def missSentence : List Char := "0,0000.0000N,00000.0000E,9.9,0.0,0,0,0,0,0,0,0".data

/-- The fix decoded from `hdop9Sentence`. -/
def hdop9Fix : GPSFix :=
  ⟨"0".data, "0000.0000N".data, "00000.0000E".data, "9.0".data, "0.0".data,
   "3".data, "0".data, "0".data, "0".data, "0".data, "0".data, "0".data, 0, 0, 0, 9⟩

/-- The fix decoded from `hdop4Sentence`. -/
def hdop4Fix : GPSFix :=
  ⟨"0".data, "0000.0000N".data, "00000.0000E".data, "4.0".data, "0.0".data,
   "3".data, "0".data, "0".data, "0".data, "0".data, "0".data, "0".data, 0, 0, 0, 4⟩

/-- The fix decoded from `hdop2Sentence`. -/
def hdop2Fix : GPSFix :=
  ⟨"0".data, "0000.0000N".data, "00000.0000E".data, "2.0".data, "0.0".data,
   "3".data, "0".data, "0".data, "0".data, "0".data, "0".data, "0".data, 0, 0, 0, 2⟩

/-- The fix decoded from `hdop12Sentence`. -/
def hdop12Fix : GPSFix :=
  ⟨"0".data, "0000.0000N".data, "00000.0000E".data, "1.2".data, "0.0".data,
   "3".data, "0".data, "0".data, "0".data, "0".data, "0".data, "0".data, 0, 0, 0, 6 / 5⟩

/-- First sentence of the HDOP-tie pair: HDOP 2.0, latitude minutes 00. -/
def tieSentenceA : List Char := "0,0000.0000N,00000.0000E,2.0,0.0,3,0,0,0,0,0,0".data

/-- Second sentence of the HDOP-tie pair: the same HDOP 2.0 but latitude
minutes 06, so it decodes to a different position. -/
def tieSentenceB : List Char := "0,0006.0000N,00000.0000E,2.0,0.0,3,0,0,0,0,0,0".data

/-- The fix decoded from `tieSentenceA`. -/
def tieFixA : GPSFix := hdop2Fix

/-- The fix decoded from `tieSentenceB` (latitude 6 minutes = 1/10 degree). -/
def tieFixB : GPSFix :=
  ⟨"0".data, "0006.0000N".data, "00000.0000E".data, "2.0".data, "0.0".data,
   "3".data, "0".data, "0".data, "0".data, "0".data, "0".data, "0".data, 1 / 10, 0, 0, 2⟩

/-- A quality-3 sentence whose latitude direction character is `X` (neither
`N` nor `S`). -/
def badDirSentence : List Char := "0,0012.0000X,00000.0000E,1.0,0.0,3,0,0,0,0,0,0".data

/-- The fix decoded from `badDirSentence`: its latitude is exactly 0 even
though the latitude field carries 12 minutes. -/
def badDirFix : GPSFix :=
  ⟨"0".data, "0012.0000X".data, "00000.0000E".data, "1.0".data, "0.0".data,
   "3".data, "0".data, "0".data, "0".data, "0".data, "0".data, "0".data, 0, 0, 0, 1⟩

/-- Claim C9 (confirmed): raw signal-quality `n ≤ 31` maps to `n / 31`,
`100 ≤ n ≤ 191` maps to `(n - 100) / 91` (100 ↦ 0, 191 ↦ 1), and every other
raw value maps to `None`. -/
theorem signal_strength_ranges (n : ℕ) :
    (n ≤ 31 → signal_strength n = some ((n : ℚ) / 31)) ∧
    (100 ≤ n → n ≤ 191 → signal_strength n = some (((n : ℚ) - 100) / 91)) ∧
    (31 < n → n < 100 → signal_strength n = none) ∧
    (191 < n → signal_strength n = none) := by
  refine ⟨fun h => ?_, fun h1 h2 => ?_, fun h1 h2 => ?_, fun h => ?_⟩
  · unfold signal_strength
    rw [if_pos h]
  · unfold signal_strength
    rw [if_neg (by omega), if_pos ⟨h1, h2⟩]
  · unfold signal_strength
    rw [if_neg (by omega), if_neg (by omega)]
  · unfold signal_strength
    rw [if_neg (by omega), if_neg (by omega)]

/-- Witness for C9: the endpoint raw values 0, 31, 100, 191 and the
out-of-range 192. -/
theorem signal_strength_ranges_witness :
    signal_strength 0 = some 0 ∧ signal_strength 31 = some 1 ∧
    signal_strength 100 = some 0 ∧ signal_strength 191 = some 1 ∧
    signal_strength 192 = none := by
  refine ⟨?_, ?_, ?_, ?_, (signal_strength_ranges 192).2.2.2 (by norm_num)⟩
  · rw [(signal_strength_ranges 0).1 (by norm_num)]
    norm_num
  · rw [(signal_strength_ranges 31).1 (by norm_num)]
    norm_num
  · rw [(signal_strength_ranges 100).2.1 (by norm_num) (by norm_num)]
    norm_num
  · rw [(signal_strength_ranges 191).2.1 (by norm_num) (by norm_num)]
    norm_num

/-- Claim C8 (confirmed): for every ECM status reply with at least 5
comma-separated fields, `ecm_up` returns `true` exactly when field 1 of the
resulting ECM configuration (the quote-stripped reply fields) is the literal
string `"1"`, and `false` for every other value of that field. -/
theorem ecm_up_field1 (reply : List Char) (h : (pySplit ',' reply).length ≥ 5) :
    ∃ v, get_ecm_config reply = .ok v ∧
      (ecm_up reply = .ok true ↔ v.getD 1 [] = "1".data) ∧
      (v.getD 1 [] ≠ "1".data → ecm_up reply = .ok false) := by
  have hcfg : get_ecm_config reply = .ok ((pySplit ',' reply).map strip_quotes) := by
    simp [get_ecm_config, h]
  refine ⟨(pySplit ',' reply).map strip_quotes, hcfg, ?_, ?_⟩
  · simp [ecm_up, hcfg]
  · intro hne
    unfold ecm_up
    rw [hcfg]
    exact congrArg Except.ok (decide_eq_false hne)

/-- Witness for C8: a concrete five-field reply with field 1 equal to `1`. -/
theorem ecm_up_field1_witness :
    (∃ v, get_ecm_config ("0,1,A,B,C".data) = .ok v ∧
      (ecm_up ("0,1,A,B,C".data) = .ok true ↔ v.getD 1 [] = "1".data) ∧
      (v.getD 1 [] ≠ "1".data → ecm_up ("0,1,A,B,C".data) = .ok false)) ∧
    ecm_up ("0,1,A,B,C".data) = .ok true ∧
    ecm_up ("0,2,A,B,C".data) = .ok false :=
  ⟨ecm_up_field1 ("0,1,A,B,C".data) (by decide), by decide, by decide⟩

/-- Claim C6 (confirmed): in `TelitECM._wait_for_reboot`, when EOF is not
observed within the secondary window the sequence raises `ModemTimeout` and
never restarts `cu` or re-runs the handshake; the restart and the handshake
happen only on the EOF branch, after the EOF wait. -/
theorem wait_for_reboot_eof_gate (eof : Bool) (env : ℕ → ATEvent) :
    (eof = false →
        wait_for_reboot eof env =
          ⟨.error .modemTimeout, [.settleSleep, .waitEOF]⟩) ∧
    ((RebootAction.startCu ∈ (wait_for_reboot eof env).actions ∨
      RebootAction.handshake ∈ (wait_for_reboot eof env).actions) → eof = true) ∧
    (eof = true →
        (wait_for_reboot eof env).actions =
          [.settleSleep, .waitEOF, .startCu, .shortSleep, .handshake] ∧
        (wait_for_reboot eof env).result = (send_at_ok env 10).result) := by
  cases eof <;> simp [wait_for_reboot]

/-- Witness for C6: a run in which EOF never appears. -/
theorem wait_for_reboot_eof_gate_witness :
    wait_for_reboot false (fun _ => ATEvent.okResp) =
      ⟨.error .modemTimeout, [.settleSleep, .waitEOF]⟩ :=
  (wait_for_reboot_eof_gate false (fun _ => ATEvent.okResp)).1 rfl

lemma get_position_loop_cons_accept (t : ℚ) (r : List Char) (rest : List (List Char))
    (minr : Option GPSFix) (rc : GPSFix) (hshape : usableShape r)
    (hparse : parse_values (pySplit ',' r) = .ok rc) (hacc : t ≥ rc.hdop) :
    get_position_loop t (r :: rest) minr = ⟨.ok (some rc), 0⟩ := by
  have hs : (pySplit ',' r).length ≥ 6 ∧ (pySplit ',' r).getD 5 [] = "3".data := hshape
  simp only [get_position_loop]
  rw [if_pos hs, hparse]
  simp [hacc]

lemma get_position_loop_cons_retain (t : ℚ) (r : List Char) (rest : List (List Char))
    (minr : Option GPSFix) (rc : GPSFix) (hshape : usableShape r)
    (hparse : parse_values (pySplit ',' r) = .ok rc) (hrej : ¬ t ≥ rc.hdop) :
    get_position_loop t (r :: rest) minr =
      ⟨(get_position_loop t rest (retain minr rc)).result,
       (get_position_loop t rest (retain minr rc)).sleeps +
         if rest.isEmpty then 0 else 1⟩ := by
  have hs : (pySplit ',' r).length ≥ 6 ∧ (pySplit ',' r).getD 5 [] = "3".data := hshape
  simp only [get_position_loop]
  rw [if_pos hs, hparse]
  simp [hrej]

lemma get_position_loop_cons_error (t : ℚ) (r : List Char) (rest : List (List Char))
    (minr : Option GPSFix) (e : PyErr) (hshape : usableShape r)
    (hparse : parse_values (pySplit ',' r) = .error e) :
    get_position_loop t (r :: rest) minr = ⟨.error e, 0⟩ := by
  have hs : (pySplit ',' r).length ≥ 6 ∧ (pySplit ',' r).getD 5 [] = "3".data := hshape
  simp only [get_position_loop]
  rw [if_pos hs, hparse]

lemma get_position_loop_cons_miss (t : ℚ) (r : List Char) (rest : List (List Char))
    (minr : Option GPSFix) (hshape : ¬ usableShape r) :
    get_position_loop t (r :: rest) minr =
      ⟨(get_position_loop t rest minr).result,
       (get_position_loop t rest minr).sleeps + if rest.isEmpty then 0 else 1⟩ := by
  have hs : ¬ ((pySplit ',' r).length ≥ 6 ∧ (pySplit ',' r).getD 5 [] = "3".data) := hshape
  simp only [get_position_loop]
  rw [if_neg hs]

lemma parse_hdop9 : parse_values (pySplit ',' hdop9Sentence) = .ok hdop9Fix := by
  simp [hdop9Sentence, hdop9Fix, parse_values, parse_latitude, parse_longitude,
        pyInt, pyFloat, pyMantissa, pySplit, decDigits, digitsToNat]
  try norm_num

lemma parse_hdop4 : parse_values (pySplit ',' hdop4Sentence) = .ok hdop4Fix := by
  simp [hdop4Sentence, hdop4Fix, parse_values, parse_latitude, parse_longitude,
        pyInt, pyFloat, pyMantissa, pySplit, decDigits, digitsToNat]
  try norm_num

lemma parse_hdop2 : parse_values (pySplit ',' hdop2Sentence) = .ok hdop2Fix := by
  simp [hdop2Sentence, hdop2Fix, parse_values, parse_latitude, parse_longitude,
        pyInt, pyFloat, pyMantissa, pySplit, decDigits, digitsToNat]
  try norm_num

lemma parse_hdop12 : parse_values (pySplit ',' hdop12Sentence) = .ok hdop12Fix := by
  simp [hdop12Sentence, hdop12Fix, parse_values, parse_latitude, parse_longitude,
        pyInt, pyFloat, pyMantissa, pySplit, decDigits, digitsToNat]
  try norm_num

lemma parse_tieA : parse_values (pySplit ',' tieSentenceA) = .ok tieFixA := by
  simp [tieSentenceA, tieFixA, hdop2Fix, parse_values, parse_latitude, parse_longitude,
        pyInt, pyFloat, pyMantissa, pySplit, decDigits, digitsToNat]
  try norm_num

lemma parse_tieB : parse_values (pySplit ',' tieSentenceB) = .ok tieFixB := by
  simp [tieSentenceB, tieFixB, parse_values, parse_latitude, parse_longitude,
        pyInt, pyFloat, pyMantissa, pySplit, decDigits, digitsToNat]
  try norm_num

lemma parse_badDir : parse_values (pySplit ',' badDirSentence) = .ok badDirFix := by
  simp [badDirSentence, badDirFix, parse_values, parse_latitude, parse_longitude,
        pyInt, pyFloat, pyMantissa, pySplit, decDigits, digitsToNat]
  try norm_num

/-- Claim C3 (corrected): a sentence whose field count is not 12 always
raises `TelitGPSDataError` and never yields a fix; a sentence with exactly 12
fields yields the fully populated fix record provided its latitude,
longitude, altitude and HDOP fields parse as numbers. -/
theorem parse_values_field_count :
    (∀ position : List (List Char), position.length ≠ 12 →
        parse_values position = .error .telitGPSDataError) ∧
    (∀ (position : List (List Char)) (la lo alt hd : ℚ), position.length = 12 →
        parse_latitude (position.getD 1 []) = some la →
        parse_longitude (position.getD 2 []) = some lo →
        pyFloat (position.getD 4 []) = some alt →
        pyFloat (position.getD 3 []) = some hd →
        parse_values position =
          .ok ⟨position.getD 0 [], position.getD 1 [], position.getD 2 [],
               position.getD 3 [], position.getD 4 [], position.getD 5 [],
               position.getD 6 [], position.getD 7 [], position.getD 8 [],
               position.getD 9 [], position.getD 10 [], position.getD 11 [],
               la, lo, alt, hd⟩) := by
  constructor
  · intro p h
    simp [parse_values, h]
  · intro p la lo alt hd h h1 h2 h3 h4
    unfold parse_values
    rw [if_neg (by simp [h]), h1, h2, h3, h4]

/-- Counterexample for C3 as stated: the raw response `,,,,,,,,,,,` splits
into exactly 12 (empty) fields, yet decoding raises `ValueError` instead of
returning a fully populated fix. -/
theorem parse_values_twelve_empty_counterexample :
    (pySplit ',' (",,,,,,,,,,,".data)).length = 12 ∧
    parse_values (pySplit ',' (",,,,,,,,,,,".data)) = .error .valueError := by
  decide

/-- Witness for C3: a complete 12-field quality-3 sentence decodes to its
fully populated fix record. -/
theorem parse_values_field_count_witness :
    parse_values (pySplit ',' hdop12Sentence) = .ok hdop12Fix := by
  have h := parse_values_field_count.2 (pySplit ',' hdop12Sentence) 0 0 0 (6 / 5)
    (by decide)
    (by simp [hdop12Sentence, parse_latitude, pyInt, pyFloat, pyMantissa, pySplit,
              decDigits, digitsToNat, pySplit])
    (by simp [hdop12Sentence, parse_longitude, pyInt, pyFloat, pyMantissa, pySplit,
              decDigits, digitsToNat])
    (by simp [hdop12Sentence, pyFloat, pyMantissa, pySplit, decDigits, digitsToNat])
    (by simp [hdop12Sentence, pyFloat, pyMantissa, pySplit, decDigits, digitsToNat]
        norm_num)
  rw [h]
  rfl

lemma pyInt_two (d1 d2 : Char) (h1 : d1.isDigit) (h2 : d2.isDigit) :
    pyInt [d1, d2] = some (10 * (d1.toNat - 48) + (d2.toNat - 48)) := by
  simp [pyInt, decDigits, digitsToNat, h1, h2]
  omega

lemma pyInt_three (d1 d2 d3 : Char) (h1 : d1.isDigit) (h2 : d2.isDigit) (h3 : d3.isDigit) :
    pyInt [d1, d2, d3] =
      some (100 * (d1.toNat - 48) + 10 * (d2.toNat - 48) + (d3.toNat - 48)) := by
  simp [pyInt, decDigits, digitsToNat, h1, h2, h3]
  omega

/-- Claim C2 (confirmed): a latitude field `DDMM.mmmm<dir>` decodes to
`sign(dir) * (DD + MM.mmmm / 60)` and a longitude field `DDDMM.mmmm<dir>` to
`sign(dir) * (DDD + MM.mmmm / 60)`, with `sign('N') = sign('E') = +1` and
`sign('S') = sign('W') = -1`. -/
theorem parse_latlon_formula (d1 d2 d3 : Char) (ms : List Char) (m : ℚ) (dir : Char)
    (h1 : d1.isDigit) (h2 : d2.isDigit) (h3 : d3.isDigit)
    (hm : pyFloat ms = some m) :
    (dir = 'N' → parse_latitude ([d1, d2] ++ ms ++ [dir]) =
        some (((10 * (d1.toNat - 48) + (d2.toNat - 48) : ℕ) : ℚ) + m / 60)) ∧
    (dir = 'S' → parse_latitude ([d1, d2] ++ ms ++ [dir]) =
        some (-(((10 * (d1.toNat - 48) + (d2.toNat - 48) : ℕ) : ℚ) + m / 60))) ∧
    (dir = 'E' → parse_longitude ([d1, d2, d3] ++ ms ++ [dir]) =
        some (((100 * (d1.toNat - 48) + 10 * (d2.toNat - 48) + (d3.toNat - 48) : ℕ) : ℚ) +
          m / 60)) ∧
    (dir = 'W' → parse_longitude ([d1, d2, d3] ++ ms ++ [dir]) =
        some (-(((100 * (d1.toNat - 48) + 10 * (d2.toNat - 48) + (d3.toNat - 48) : ℕ) : ℚ) +
          m / 60))) := by
  have hlast2 : ([d1, d2] ++ ms ++ [dir]).getLast? = some dir :=
    List.getLast?_concat _
  have hlast3 : ([d1, d2, d3] ++ ms ++ [dir]).getLast? = some dir :=
    List.getLast?_concat _
  have hmid2 : (([d1, d2] ++ ms ++ [dir]).drop 2).dropLast = ms := by
    show (ms ++ [dir]).dropLast = ms
    exact List.dropLast_concat
  have hmid3 : (([d1, d2, d3] ++ ms ++ [dir]).drop 3).dropLast = ms := by
    show (ms ++ [dir]).dropLast = ms
    exact List.dropLast_concat
  have hint2 : pyInt (([d1, d2] ++ ms ++ [dir]).take 2) =
      some (10 * (d1.toNat - 48) + (d2.toNat - 48)) := pyInt_two d1 d2 h1 h2
  have hint3 : pyInt (([d1, d2, d3] ++ ms ++ [dir]).take 3) =
      some (100 * (d1.toNat - 48) + 10 * (d2.toNat - 48) + (d3.toNat - 48)) :=
    pyInt_three d1 d2 d3 h1 h2 h3
  refine ⟨fun hdir => ?_, fun hdir => ?_, fun hdir => ?_, fun hdir => ?_⟩ <;> subst hdir
  · simp only [parse_latitude]
    rw [hlast2, hint2, hmid2, hm, if_pos rfl]
    simp
  · simp only [parse_latitude]
    rw [hlast2, hint2, hmid2, hm, if_neg (by decide), if_pos rfl]
    simp
  · simp only [parse_longitude]
    rw [hlast3, hint3, hmid3, hm, if_pos rfl]
    simp
  · simp only [parse_longitude]
    rw [hlast3, hint3, hmid3, hm, if_neg (by decide), if_pos rfl]
    simp

/-- Witness for C2: `"3723.2475N"` decodes to `37 + 23.2475/60` and
`"3723.2475S"` to its negation. -/
theorem parse_latlon_formula_witness :
    parse_latitude "3723.2475N".data = some ((37 : ℚ) + (23.2475 : ℚ) / 60) ∧
    parse_latitude "3723.2475S".data = some (-((37 : ℚ) + (23.2475 : ℚ) / 60)) := by
  have hm : pyFloat "23.2475".data = some (23.2475 : ℚ) := by
    simp [pyFloat, pyMantissa, pySplit, decDigits, digitsToNat]
    norm_num
  have hform := parse_latlon_formula '3' '7' '0' ("23.2475".data) (23.2475 : ℚ) 'N'
    (by decide) (by decide) (by decide) hm
  have hformS := parse_latlon_formula '3' '7' '0' ("23.2475".data) (23.2475 : ℚ) 'S'
    (by decide) (by decide) (by decide) hm
  have hlist : "3723.2475N".data = ['3', '7'] ++ "23.2475".data ++ ['N'] := by decide
  have hlistS : "3723.2475S".data = ['3', '7'] ++ "23.2475".data ++ ['S'] := by decide
  have e3 : '3'.toNat - 48 = 3 := by decide
  have e7 : '7'.toNat - 48 = 7 := by decide
  constructor
  · rw [hlist, hform.1 rfl, e3, e7]
    norm_num
  · rw [hlistS, hformS.2.1 rfl, e3, e7]
    norm_num

/-- Claim C10 (confirmed): when the final character of a latitude field is
neither `N` nor `S` (or of a longitude field neither `E` nor `W`), decoding
does not fail: the sign stays 0 and the coordinate decodes to exactly 0,
which `get_position` hands to its caller inside an otherwise valid fix. -/
theorem parse_direction_default_zero (d1 d2 d3 : Char) (ms ms2 : List Char) (m m2 : ℚ)
    (dirLat dirLon : Char) (h1 : d1.isDigit) (h2 : d2.isDigit) (h3 : d3.isDigit)
    (hm : pyFloat ms = some m) (hm2 : pyFloat ms2 = some m2)
    (hN : dirLat ≠ 'N') (hS : dirLat ≠ 'S') (hE : dirLon ≠ 'E') (hW : dirLon ≠ 'W') :
    parse_latitude ([d1, d2] ++ ms ++ [dirLat]) = some 0 ∧
    parse_longitude ([d1, d2, d3] ++ ms2 ++ [dirLon]) = some 0 ∧
    get_position (3 / 2 : ℚ) [badDirSentence] = ⟨.ok (some badDirFix), 0⟩ ∧
    badDirFix.latitude = 0 := by
  have hlast2 : ([d1, d2] ++ ms ++ [dirLat]).getLast? = some dirLat :=
    List.getLast?_concat _
  have hlast3 : ([d1, d2, d3] ++ ms2 ++ [dirLon]).getLast? = some dirLon :=
    List.getLast?_concat _
  have hmid2 : (([d1, d2] ++ ms ++ [dirLat]).drop 2).dropLast = ms := by
    show (ms ++ [dirLat]).dropLast = ms
    exact List.dropLast_concat
  have hmid3 : (([d1, d2, d3] ++ ms2 ++ [dirLon]).drop 3).dropLast = ms2 := by
    show (ms2 ++ [dirLon]).dropLast = ms2
    exact List.dropLast_concat
  have hint2 : pyInt (([d1, d2] ++ ms ++ [dirLat]).take 2) =
      some (10 * (d1.toNat - 48) + (d2.toNat - 48)) := pyInt_two d1 d2 h1 h2
  have hint3 : pyInt (([d1, d2, d3] ++ ms2 ++ [dirLon]).take 3) =
      some (100 * (d1.toNat - 48) + 10 * (d2.toNat - 48) + (d3.toNat - 48)) :=
    pyInt_three d1 d2 d3 h1 h2 h3
  refine ⟨?_, ?_, ?_, rfl⟩
  · simp only [parse_latitude]
    rw [hlast2, hmid2, hm, hint2, if_neg (by simp [hN]), if_neg (by simp [hS])]
    simp
  · simp only [parse_longitude]
    rw [hlast3, hmid3, hm2, hint3, if_neg (by simp [hE]), if_neg (by simp [hW])]
    simp
  · rw [get_position, get_position_loop_cons_accept (3 / 2 : ℚ) badDirSentence [] none
      badDirFix (by decide) parse_badDir (by norm_num [badDirFix])]

/-- Witness for C10: the latitude field `0012.0000X` (direction `X`) decodes
to exactly 0 although it carries 12 minutes, and the longitude field
`00000.0000Q` decodes to 0. -/
theorem parse_direction_default_zero_witness :
    parse_latitude "0012.0000X".data = some 0 ∧
    parse_longitude "00000.0000Q".data = some 0 := by
  have hm : pyFloat "12.0000".data = some (12 : ℚ) := by
    simp [pyFloat, pyMantissa, pySplit, decDigits, digitsToNat]
  have hm2 : pyFloat "00.0000".data = some (0 : ℚ) := by
    simp [pyFloat, pyMantissa, pySplit, decDigits, digitsToNat]
  have h := parse_direction_default_zero '0' '0' '0' ("12.0000".data) ("00.0000".data)
    12 0 'X' 'Q' (by decide) (by decide) (by decide) hm hm2
    (by decide) (by decide) (by decide) (by decide)
  have hl1 : "0012.0000X".data = ['0', '0'] ++ "12.0000".data ++ ['X'] := by decide
  have hl2 : "00000.0000Q".data = ['0', '0', '0'] ++ "00.0000".data ++ ['Q'] := by decide
  constructor
  · rw [hl1]
    exact h.1
  · rw [hl2]
    exact h.2.1

lemma sendAtOkAux_all_timeout (env : ℕ → ATEvent) :
    ∀ (n k : ℕ), (∀ j, j < n → env (k + j) = .timeout) →
      sendAtOkAux env k n = ⟨.error .modemTimeout, n, n⟩ := by
  intro n
  induction n with
  | zero => intro k _; rfl
  | succ m ih =>
    intro k h
    have h0 : env k = .timeout := by simpa using h 0 (Nat.succ_pos m)
    have h' : ∀ j, j < m → env (k + 1 + j) = .timeout := by
      intro j hj
      have hkj : k + 1 + j = k + (j + 1) := by omega
      rw [hkj]
      exact h (j + 1) (by omega)
    simp only [sendAtOkAux, h0, wait_for_result]
    rw [ih (k + 1) h']

lemma sendAtOkAux_first_stop (env : ℕ → ATEvent) :
    ∀ (j n k : ℕ), j < n → (∀ i, i < j → env (k + i) = .timeout) →
      (env (k + j) = .okResp → sendAtOkAux env k n = ⟨.ok (), j + 1, j⟩) ∧
      (env (k + j) = .errResp →
        sendAtOkAux env k n = ⟨.error .modemError, j + 1, j⟩) := by
  intro j
  induction j with
  | zero =>
    intro n k hn _
    obtain ⟨m, rfl⟩ : ∃ m, n = m + 1 := ⟨n - 1, by omega⟩
    constructor <;> intro he <;>
      simp only [Nat.add_zero] at he <;>
      simp [sendAtOkAux, he, wait_for_result]
  | succ i ih =>
    intro n k hn h
    obtain ⟨m, rfl⟩ : ∃ m, n = m + 1 := ⟨n - 1, by omega⟩
    have h0 : env k = .timeout := by simpa using h 0 (by omega)
    have hshift : ∀ i2, i2 < i → env (k + 1 + i2) = .timeout := by
      intro i2 hi2
      have hx : k + 1 + i2 = k + (i2 + 1) := by omega
      rw [hx]
      exact h (i2 + 1) (by omega)
    have hrec := ih m (k + 1) (by omega) hshift
    have hx : k + 1 + i = k + (i + 1) := by omega
    constructor <;> intro he
    · simp only [sendAtOkAux, h0, wait_for_result]
      rw [hrec.1 (by rw [hx]; exact he)]
    · simp only [sendAtOkAux, h0, wait_for_result]
      rw [hrec.2 (by rw [hx]; exact he)]

/-- Claim C5 (corrected): `send_at_ok(count)` retries — with a backoff after
every failed attempt — only as long as each attempt times out: an `OK` at
attempt `j` returns after `j + 1` sends, exhaustion of all `count` attempts
on timeouts raises `ModemTimeout`, but an `ERROR` terminator at attempt `j`
raises `ModemError` immediately instead of continuing to retry. -/
theorem send_at_ok_policy (env : ℕ → ATEvent) (count : ℕ) :
    ((∀ k, k < count → env k = .timeout) →
        send_at_ok env count = ⟨.error .modemTimeout, count, count⟩) ∧
    (∀ j, j < count → (∀ k, k < j → env k = .timeout) → env j = .okResp →
        send_at_ok env count = ⟨.ok (), j + 1, j⟩) ∧
    (∀ j, j < count → (∀ k, k < j → env k = .timeout) → env j = .errResp →
        send_at_ok env count = ⟨.error .modemError, j + 1, j⟩) := by
  refine ⟨fun h => ?_, fun j hj h hj2 => ?_, fun j hj h hj2 => ?_⟩
  · exact sendAtOkAux_all_timeout env count 0 (by simpa using h)
  · exact (sendAtOkAux_first_stop env j count 0 hj (by simpa using h)).1 (by simpa using hj2)
  · exact (sendAtOkAux_first_stop env j count 0 hj (by simpa using h)).2 (by simpa using hj2)

/-- Counterexample for C5 as stated: an `ERROR` reply to the very first `AT`
makes `send_at_ok` raise `ModemError` after a single attempt — it neither
keeps retrying until `OK` nor exhausts its 10 attempts with `ModemTimeout`. -/
theorem send_at_ok_error_counterexample :
    send_at_ok (fun _ => ATEvent.errResp) 10 = ⟨.error .modemError, 1, 0⟩ ∧
    PyErr.modemError ≠ PyErr.modemTimeout := by
  decide

/-- Witness for C5: one timeout followed by `OK` returns after two attempts
and one backoff; ten straight timeouts raise `ModemTimeout`. -/
theorem send_at_ok_policy_witness :
    send_at_ok (fun k => if k = 0 then ATEvent.timeout else ATEvent.okResp) 10 =
      ⟨.ok (), 2, 1⟩ ∧
    send_at_ok (fun _ => ATEvent.timeout) 10 = ⟨.error .modemTimeout, 10, 10⟩ :=
  ⟨(send_at_ok_policy (fun k => if k = 0 then ATEvent.timeout else ATEvent.okResp) 10).2.1
      1 (by norm_num) (by decide) (by decide),
   (send_at_ok_policy (fun _ => ATEvent.timeout) 10).1 (fun k _ => rfl)⟩

lemma get_cgdcont_loop_rows (rows : List (List Char)) :
    ∀ acc, get_cgdcont_loop (rows.map CgdEvent.row ++ [CgdEvent.okTerm]) acc =
      some (match (rows.filterMap retainedRow).getLast? with
            | some r => .ok r
            | none =>
              match acc with
              | none => .error .ecmDataError
              | some r => .ok r) := by
  induction rows with
  | nil => intro acc; cases acc <;> rfl
  | cons r rest ih =>
    intro acc
    simp only [List.map_cons, List.cons_append, get_cgdcont_loop, List.filterMap_cons]
    cases hr : retainedRow r with
    | none =>
      exact ih acc
    | some v =>
      refine (ih (some v)).trans ?_
      cases hL : (rest.filterMap retainedRow) with
      | nil => rfl
      | cons w ws =>
        rw [List.getLast?_cons_cons]
        obtain ⟨u, hu⟩ : ∃ u, (w :: ws).getLast? = some u := by
          cases hg : (w :: ws).getLast? with
          | none => exact absurd (List.getLast?_eq_none_iff.mp hg) (by simp)
          | some u => exact ⟨u, rfl⟩
        rw [hu]

lemma get_cgdcont_loop_timeout (rows : List (List Char)) (post : List CgdEvent) :
    ∀ acc, get_cgdcont_loop (rows.map CgdEvent.row ++ CgdEvent.timeout :: post) acc =
      some (.error .modemTimeout) := by
  induction rows with
  | nil => intro acc; rfl
  | cons r rest ih =>
    intro acc
    simp only [List.map_cons, List.cons_append, get_cgdcont_loop]
    exact ih _

/-- Claim C7 (corrected): `get_cgdcont` keeps consuming events until `OK`,
retaining the last data row that has at least 4 comma fields and context id
`"1"` (with quotes stripped from fields 1 and 2); rows with context id `"1"`
but fewer than 4 fields are ignored like any other row; `ECMDataError` is
raised at `OK` when no such row appeared, and a timeout raises
`ModemTimeout`. -/
theorem get_cgdcont_policy (rows : List (List Char)) (post : List CgdEvent) :
    get_cgdcont (rows.map CgdEvent.row ++ [CgdEvent.okTerm]) =
      some (match (rows.filterMap retainedRow).getLast? with
            | some r => .ok r
            | none => .error .ecmDataError) ∧
    get_cgdcont (rows.map CgdEvent.row ++ CgdEvent.timeout :: post) =
      some (.error .modemTimeout) := by
  constructor
  · rw [get_cgdcont, get_cgdcont_loop_rows rows none]
  · exact get_cgdcont_loop_timeout rows post none

/-- Counterexample for C7 as stated: the row `1,A` has context id `"1"`, yet
`get_cgdcont` ignores it (it has fewer than 4 fields) and raises
`ECMDataError` at the terminating `OK` instead of returning the row. -/
theorem get_cgdcont_short_row_counterexample :
    (pySplit ',' ("1,A".data)).getD 0 [] = "1".data ∧
    get_cgdcont [CgdEvent.row ("1,A".data), CgdEvent.okTerm] =
      some (.error .ecmDataError) := by
  decide

/-- Claim C4 (corrected): inside `get_position`, a response with fewer than 6
comma fields or whose field 5 is not `"3"` is a miss — the loop goes on to
the next attempt, with the fixed 10-second delay skipped only before the very
first attempt; but a response whose field 5 is `"3"` and which fails to
decode (e.g. field count ≠ 12) aborts the whole loop with the decoder's
exception. -/
theorem get_position_miss_policy (t : ℚ) :
    (∀ r rest, ¬ usableShape r →
        (get_position t (r :: rest)).result = (get_position t rest).result ∧
        (get_position t (r :: rest)).sleeps =
          (get_position t rest).sleeps + if rest.isEmpty then 0 else 1) ∧
    (∀ r rest e, usableShape r → parse_values (pySplit ',' r) = .error e →
        get_position t (r :: rest) = ⟨.error e, 0⟩) := by
  constructor
  · intro r rest h
    rw [get_position, get_position, get_position_loop_cons_miss t r rest none h]
    exact ⟨rfl, rfl⟩
  · intro r rest e hs hp
    rw [get_position, get_position_loop_cons_error t r rest none e hs hp]

/-- Counterexample for C4 as stated: `0,0,0,0,0,3,0` is malformed (7 fields)
but reports fix quality 3, and `get_position` aborts its very first attempt
by raising `TelitGPSDataError` instead of counting a miss. -/
theorem get_position_malformed_abort_counterexample :
    get_position (3 / 2 : ℚ) ["0,0,0,0,0,3,0".data] =
      ⟨.error .telitGPSDataError, 0⟩ := by
  decide

/-- Witness for C4: a quality-0 miss leaves the run's outcome unchanged, and
a malformed quality-3 response aborts with `TelitGPSDataError`. -/
theorem get_position_miss_policy_witness :
    ((get_position (3 / 2 : ℚ) [missSentence]).result =
        (get_position (3 / 2 : ℚ) []).result ∧
      (get_position (3 / 2 : ℚ) [missSentence]).sleeps =
        (get_position (3 / 2 : ℚ) []).sleeps +
          if ([] : List (List Char)).isEmpty then 0 else 1) ∧
    get_position (3 / 2 : ℚ) ["0,0,3,3,3,3".data] = ⟨.error .telitGPSDataError, 0⟩ :=
  ⟨(get_position_miss_policy (3 / 2 : ℚ)).1 missSentence [] (by decide),
   (get_position_miss_policy (3 / 2 : ℚ)).2 ("0,0,3,3,3,3".data) [] .telitGPSDataError
     (by decide) (by decide)⟩

lemma decodeUsable_some (r : List Char) (rc : GPSFix) (hshape : usableShape r)
    (hrc : parse_values (pySplit ',' r) = .ok rc) : decodeUsable r = some rc := by
  unfold decodeUsable
  rw [if_pos hshape, hrc]
  rfl

lemma decodeUsable_miss (r : List Char) (hshape : ¬ usableShape r) :
    decodeUsable r = none := by
  unfold decodeUsable
  rw [if_neg hshape]

lemma get_position_loop_policy (t : ℚ) :
    ∀ (script : List (List Char)) (minr : Option GPSFix), cleanResponses script →
      (get_position_loop t script minr).result =
        .ok (match firstGood t script with
             | some f => some f
             | none => bestRetainedFrom minr script) := by
  intro script
  induction script with
  | nil => intro minr _; rfl
  | cons r rest ih =>
    intro minr hclean
    have hcleanrest : cleanResponses rest :=
      fun x hx hs => hclean x (List.mem_cons_of_mem _ hx) hs
    by_cases hshape : usableShape r
    · obtain ⟨rc, hrc⟩ := hclean r (List.mem_cons_self r rest) hshape
      have hdec := decodeUsable_some r rc hshape hrc
      by_cases hacc : t ≥ rc.hdop
      · rw [get_position_loop_cons_accept t r rest minr rc hshape hrc hacc]
        simp only [firstGood, hdec]
        rw [if_pos hacc]
      · rw [get_position_loop_cons_retain t r rest minr rc hshape hrc hacc]
        show (get_position_loop t rest (retain minr rc)).result = _
        rw [ih (retain minr rc) hcleanrest]
        have hbr : bestRetainedFrom minr (r :: rest) =
            bestRetainedFrom (retain minr rc) rest := by
          simp [bestRetainedFrom, List.filterMap_cons, hdec]
        simp only [firstGood, hdec]
        rw [if_neg hacc, hbr]
    · have hdec := decodeUsable_miss r hshape
      rw [get_position_loop_cons_miss t r rest minr hshape]
      show (get_position_loop t rest minr).result = _
      rw [ih minr hcleanrest]
      have hbr : bestRetainedFrom minr (r :: rest) = bestRetainedFrom minr rest := by
        simp [bestRetainedFrom, List.filterMap_cons, hdec]
      simp only [firstGood, hdec]
      rw [hbr]

lemma foldl_retain_some (l : List GPSFix) :
    ∀ f : GPSFix, ∃ g, l.foldl retain (some f) = some g := by
  induction l with
  | nil => intro f; exact ⟨f, rfl⟩
  | cons x xs ih =>
    intro f
    by_cases h : f.hdop ≥ x.hdop
    · rw [List.foldl_cons, show retain (some f) x = some x from by
        simp only [retain]; rw [if_pos h]]
      exact ih x
    · rw [List.foldl_cons, show retain (some f) x = some f from by
        simp only [retain]; rw [if_neg h]]
      exact ih f

lemma bestRetained_of_ne_nil (script : List (List Char))
    (h : script.filterMap decodeUsable ≠ []) :
    ∃ g, bestRetainedFrom none script = some g := by
  unfold bestRetainedFrom
  rcases hL : script.filterMap decodeUsable with _ | ⟨x, xs⟩
  · exact absurd hL h
  · rw [List.foldl_cons, show retain none x = some x from rfl]
    exact foldl_retain_some xs x

lemma scenario_chain (x : List Char) :
    get_position (3 / 2 : ℚ)
        [hdop9Sentence, hdop4Sentence, hdop2Sentence, hdop12Sentence, x] =
      ⟨.ok (some hdop12Fix), 3⟩ := by
  have h9 : ¬ (3 / 2 : ℚ) ≥ hdop9Fix.hdop := by norm_num [hdop9Fix]
  have h4 : ¬ (3 / 2 : ℚ) ≥ hdop4Fix.hdop := by norm_num [hdop4Fix]
  have h2 : ¬ (3 / 2 : ℚ) ≥ hdop2Fix.hdop := by norm_num [hdop2Fix]
  have h12 : (3 / 2 : ℚ) ≥ hdop12Fix.hdop := by norm_num [hdop12Fix]
  rw [get_position,
    get_position_loop_cons_retain (3 / 2 : ℚ) hdop9Sentence
      [hdop4Sentence, hdop2Sentence, hdop12Sentence, x] none hdop9Fix
      (by decide) parse_hdop9 h9,
    show retain none hdop9Fix = some hdop9Fix from rfl,
    get_position_loop_cons_retain (3 / 2 : ℚ) hdop4Sentence
      [hdop2Sentence, hdop12Sentence, x] (some hdop9Fix) hdop4Fix
      (by decide) parse_hdop4 h4,
    show retain (some hdop9Fix) hdop4Fix = some hdop4Fix from by
      simp only [retain]; rw [if_pos (by norm_num [hdop9Fix, hdop4Fix])],
    get_position_loop_cons_retain (3 / 2 : ℚ) hdop2Sentence
      [hdop12Sentence, x] (some hdop4Fix) hdop2Fix
      (by decide) parse_hdop2 h2,
    show retain (some hdop4Fix) hdop2Fix = some hdop2Fix from by
      simp only [retain]; rw [if_pos (by norm_num [hdop4Fix, hdop2Fix])],
    get_position_loop_cons_accept (3 / 2 : ℚ) hdop12Sentence [x] (some hdop2Fix)
      hdop12Fix (by decide) parse_hdop12 h12]
  simp

/-- Claim C1 (corrected): on a run whose usable responses all decode,
`get_position` returns the first usable fix whose HDOP meets the target
immediately, and otherwise the fix retained by folding the code's rule —
keep the new fix when the retained HDOP is greater than **or equal to** the
new one — over all usable fixes, or `None` when there were none.  Once a
usable fix is decoded the run never returns `None`, and the spec's
`[9.0, 4.0, 2.0, 1.2, miss]` scenario returns the HDOP-1.2 fix on the 4th
attempt, never evaluating the 5th. -/
theorem get_position_policy (t : ℚ) (script : List (List Char))
    (hclean : cleanResponses script) :
    (get_position t script).result =
      .ok (match firstGood t script with
           | some f => some f
           | none => bestRetainedFrom none script) ∧
    (script.filterMap decodeUsable ≠ [] →
      ∃ f, (get_position t script).result = .ok (some f)) ∧
    (∀ x, get_position (3 / 2 : ℚ)
        [hdop9Sentence, hdop4Sentence, hdop2Sentence, hdop12Sentence, x] =
      ⟨.ok (some hdop12Fix), 3⟩) := by
  have hmain := get_position_loop_policy t script none hclean
  refine ⟨hmain, fun hne => ?_, scenario_chain⟩
  cases hfg : firstGood t script with
  | some f =>
    refine ⟨f, ?_⟩
    show (get_position_loop t script none).result = _
    rw [hmain]
    simp [hfg]
  | none =>
    obtain ⟨g, hg⟩ := bestRetained_of_ne_nil script hne
    refine ⟨g, ?_⟩
    show (get_position_loop t script none).result = _
    rw [hmain]
    simp [hfg, hg]

/-- Counterexample for C1 as stated: two usable fixes with the same HDOP 2.0
(above the 1.5 target) but different positions — the code retains the
**second** (ties replace the earlier fix), while the claim's strictly-better
retention keeps the first; the run's returned fix differs. -/
theorem get_position_tie_counterexample :
    (get_position (3 / 2 : ℚ) [tieSentenceA, tieSentenceB]).result =
      .ok (some tieFixB) ∧
    claimAcquire (3 / 2 : ℚ) [tieSentenceA, tieSentenceB] = some tieFixA ∧
    tieFixA ≠ tieFixB := by
  have hneA : ¬ (3 / 2 : ℚ) ≥ tieFixA.hdop := by norm_num [tieFixA, hdop2Fix]
  have hneB : ¬ (3 / 2 : ℚ) ≥ tieFixB.hdop := by norm_num [tieFixB]
  refine ⟨?_, ?_, ?_⟩
  · rw [get_position,
      get_position_loop_cons_retain (3 / 2 : ℚ) tieSentenceA [tieSentenceB] none
        tieFixA (by decide) parse_tieA hneA,
      show retain none tieFixA = some tieFixA from rfl,
      get_position_loop_cons_retain (3 / 2 : ℚ) tieSentenceB [] (some tieFixA)
        tieFixB (by decide) parse_tieB hneB,
      show retain (some tieFixA) tieFixB = some tieFixB from by
        simp only [retain]; rw [if_pos (by norm_num [tieFixA, tieFixB, hdop2Fix])]]
    rfl
  · have hdecA : decodeUsable tieSentenceA = some tieFixA :=
      decodeUsable_some _ _ (by decide) parse_tieA
    have hdecB : decodeUsable tieSentenceB = some tieFixB :=
      decodeUsable_some _ _ (by decide) parse_tieB
    have hfg : firstGood (3 / 2 : ℚ) [tieSentenceA, tieSentenceB] = none := by
      simp only [firstGood, hdecA, hdecB]
      rw [if_neg hneA, if_neg hneB]
    simp only [claimAcquire, hfg, List.filterMap_cons, hdecA, hdecB,
      List.filterMap_nil, List.foldl_cons, List.foldl_nil]
    rw [show retainStrict none tieFixA = some tieFixA from rfl]
    simp only [retainStrict]
    rw [if_neg (by norm_num [tieFixA, tieFixB, hdop2Fix])]
  · intro h
    exact absurd (congrArg GPSFix.LATITUDE h) (by decide)

/-- Witness for C1: a clean single-response run with HDOP 2.0 above the 1.5
target returns that single usable fix, never `None`. -/
theorem get_position_policy_witness :
    (get_position (3 / 2 : ℚ) [hdop2Sentence]).result =
      .ok (match firstGood (3 / 2 : ℚ) [hdop2Sentence] with
           | some f => some f
           | none => bestRetainedFrom none [hdop2Sentence]) ∧
    ∃ f, (get_position (3 / 2 : ℚ) [hdop2Sentence]).result = .ok (some f) := by
  have hclean : cleanResponses [hdop2Sentence] := by
    intro r hr hs
    rw [List.mem_singleton] at hr
    subst hr
    exact ⟨hdop2Fix, parse_hdop2⟩
  have h := get_position_policy (3 / 2 : ℚ) [hdop2Sentence] hclean
  exact ⟨h.1, h.2.1 (by decide)⟩
